import Mathlib

/-!
Shallow embedding of the process supervisor and CDP client of the
electron-mcp-server repository (src/types/index.ts,
src/services/process-manager.ts and its companion cdp-client module).

Modelling conventions:
* JavaScript Date values are Nat milliseconds.
* All I/O (child-process spawn, HTTP GET of /json/list, the CDP socket,
  timers, Math.random, Date.now) is passed in explicitly as oracle
  arguments; a fallible call is an Except String value.
* The module-level Map of processes is an association list threaded
  through each operation; regSet mirrors Map.set (replace in place,
  append otherwise).
* The LogEntry payload field (raw event object, type any) is elided:
  nothing in the verified code reads it back.
-/

set_option autoImplicit false

deriving instance DecidableEq for Except

namespace ElectronMcp

/-- Process status, from the ElectronProcess interface in types/index.ts. -/
inductive Status where
  | running
  | stopped
  | crashed
deriving DecidableEq, Repr

/-- LogEntry.type in types/index.ts. -/
inductive LogType where
  | console
  | network
  | runtime
  | security
deriving DecidableEq, Repr

/-- LogEntry.level in types/index.ts. -/
inductive LogLevel where
  | log
  | warn
  | error
  | info
  | debug
  | verbose
deriving DecidableEq, Repr

/-- A JSON scalar value, used for protocol arguments and results. -/
inductive JsonVal where
  | null
  | bool (b : Bool)
  | num (n : Int)
  | str (s : String)
deriving DecidableEq, Repr

/-- Escaping performed by JSON.stringify on string content (quote and
backslash; control-character escapes are elided). -/
def jsonEscape (s : String) : String :=
  String.join (s.toList.map (fun c =>
    if c = '\\' then "\\\\" else if c = '"' then "\\\"" else String.singleton c))

/-- JSON.stringify on a scalar value. -/
def JsonVal.stringify : JsonVal → String
  | JsonVal.null => "null"
  | JsonVal.bool b => if b then "true" else "false"
  | JsonVal.num n => toString n
  | JsonVal.str s => "\"" ++ jsonEscape s ++ "\""

/-- CDPTarget from types/index.ts (devtoolsFrontendUrl is never read and
is elided). -/
structure CDPTarget where
  id : String
  type : String
  title : String
  url : String
  webSocketDebuggerUrl : Option String := none
deriving DecidableEq, Repr

/-- One normalized log entry (LogEntry in types/index.ts, minus the
unread raw payload). -/
structure LogEntry where
  type : LogType
  level : LogLevel
  message : String
  timestamp : Nat
  source : String
deriving DecidableEq, Repr

/-- The chrome-remote-interface client handle. The model records the
connection address, the enable() calls issued on it, and the event
listeners registered through on() - one list entry per registered
callback, in registration order, so that listenerCount(ev) is the
count of ev in the list. -/
structure CDPClient where
  target : String
  port : Nat
  enabled : List String := []
  listeners : List String := []
deriving DecidableEq, Repr

/-- ElectronProcess from types/index.ts. The ChildProcess handle is
modelled by its pid (the only observable the verified code uses);
screenshots is never touched by the code under verification and is
elided. -/
structure ElectronProcess where
  id : String
  process : Option Nat
  name : String
  status : Status
  pid : Option Nat := none
  debugPort : Option Nat := none
  startTime : Nat
  appPath : String
  cdpClient : Option CDPClient := none
  targets : Option (List CDPTarget) := none
  lastTargetUpdate : Option Nat := none
  reconnect : Option Bool := none
  reconnectAttempts : Option Nat := none
  logBuffer : List LogEntry
deriving DecidableEq, Repr

/-- The module-level const electronProcesses: Map of id to record,
modelled as an insertion-ordered association list. -/
abbrev Registry := List (String × ElectronProcess)

/-- Map.get: first entry with the given key. -/
def regGet : Registry → String → Option ElectronProcess
  | [], _ => none
  | (k, v) :: rest, key => if k = key then some v else regGet rest key

/-- Map.set: replace the entry in place when the key is present
(keeping its position, as a JS Map does), append otherwise. -/
def regSet : Registry → String → ElectronProcess → Registry
  | [], key, v => [(key, v)]
  | (k, w) :: rest, key, v =>
      if k = key then (key, v) :: rest else (k, w) :: regSet rest key v

/-- Keys of the registry, in insertion order. -/
def regKeys (R : Registry) : List String := R.map Prod.fst

/-- Array.from(electronProcesses.values()). -/
def regValues (R : Registry) : List ElectronProcess := R.map Prod.snd


/-! ### cdp-client module -/

/-- updateCDPTargets: HTTP GET of /json/list (the disc oracle carries the
fetched and parsed target array, or the transport failure), then replace
targets and stamp lastTargetUpdate; on failure the record is untouched
and the error is rethrown. -/
def updateCDPTargets (electronProcess : ElectronProcess) (now : Nat)
    (disc : Except String (List CDPTarget)) :
    Except String (List CDPTarget) × ElectronProcess :=
  match electronProcess.debugPort with
  | none => (Except.error "No debug port available for this Electron process", electronProcess)
  | some _ =>
    match disc with
    | Except.ok targets =>
        (Except.ok targets,
          { electronProcess with targets := some targets, lastTargetUpdate := some now })
    | Except.error e => (Except.error e, electronProcess)

/-- The staleness test at the head of connectToCDPTarget: the JS condition
is (not targets) or (not lastTargetUpdate) or (now - last over 5000 ms).
An empty target array is truthy in JS, so it does NOT trigger a refresh. -/
def needsTargetRefresh (electronProcess : ElectronProcess) (now : Nat) : Bool :=
  match electronProcess.targets, electronProcess.lastTargetUpdate with
  | none, _ => true
  | some _, none => true
  | some _, some t => now - t > 5000

/-- Trace of one connectToCDPTarget call: whether Target Discovery was
attempted, and whether a CDP connection was opened. -/
structure ConnectTrace where
  discovered : Bool
  opened : Bool
deriving DecidableEq, Repr

/-- connectToCDPTarget: refresh the target list when stale, resolve the
requested target id against the current list, and only then open the CDP
connection (oracle openResult) addressed by webSocketDebuggerUrl when
present, else by target id. The fresh client is stored on the record. -/
def connectToCDPTarget (electronProcess : ElectronProcess) (targetId : String)
    (now : Nat) (disc : Except String (List CDPTarget))
    (openResult : Except String Unit) :
    Except String CDPClient × ElectronProcess × ConnectTrace :=
  match electronProcess.debugPort with
  | none =>
      (Except.error "No debug port available for this Electron process",
        electronProcess, ⟨false, false⟩)
  | some port =>
    let refresh := needsTargetRefresh electronProcess now
    let step : Except String ElectronProcess :=
      if refresh then
        match updateCDPTargets electronProcess now disc with
        | (Except.ok _, ep1) => Except.ok ep1
        | (Except.error e, _) => Except.error e
      else Except.ok electronProcess
    match step with
    | Except.error e => (Except.error e, electronProcess, ⟨refresh, false⟩)
    | Except.ok ep1 =>
      match (ep1.targets.getD []).find? (fun t => t.id = targetId) with
      | none =>
          (Except.error ("Target " ++ targetId ++ " not found"), ep1, ⟨refresh, false⟩)
      | some target =>
        match openResult with
        | Except.error e => (Except.error e, ep1, ⟨refresh, false⟩)
        | Except.ok _ =>
          let client : CDPClient :=
            { target := target.webSocketDebuggerUrl.getD targetId, port := port }
          (Except.ok client, { ep1 with cdpClient := some client }, ⟨refresh, true⟩)

/-- The five event subscriptions registered by subscribeToCDPEvents, in
registration order. -/
def cdpEventNames : List String :=
  ["Runtime.consoleAPICalled", "Runtime.exceptionThrown",
   "Network.requestWillBeSent", "Network.responseReceived",
   "Security.securityStateChanged"]

/-- subscribeToCDPEvents: enable the Runtime, Network, Console and
Security domains, then register one callback per event kind on the
client. Each call appends fresh listeners unconditionally - the function
itself has no idempotence guard. The record is returned unchanged (the
logBuffer-exists guard is vacuous here since logBuffer is not optional). -/
def subscribeToCDPEvents (client : CDPClient) (electronProcess : ElectronProcess) :
    CDPClient × ElectronProcess :=
  ({ client with
      enabled := client.enabled ++ ["Runtime", "Network", "Console", "Security"],
      listeners := client.listeners ++ cdpEventNames },
    electronProcess)

/-- Runtime.RemoteObject as destructured by the console callback: a type
tag and an optional scalar value. -/
structure RemoteObject where
  type : String
  value : Option JsonVal
deriving DecidableEq, Repr

/-- Payload of Runtime.consoleAPICalled. -/
structure ConsoleEvent where
  type : String
  args : List RemoteObject
  executionContextId : Nat
  timestamp : Nat
deriving DecidableEq, Repr

/-- Message built by the consoleAPICalled callback: JSON.stringify of each
argument value, or the bracketed type tag when the value is undefined,
joined by single spaces. -/
def consoleEventMessage (args : List RemoteObject) : String :=
  String.intercalate " " (args.map (fun arg =>
    match arg.value with
    | some v => JsonVal.stringify v
    | none => "[" ++ arg.type ++ "]"))

/-- The LogEntry appended by the consoleAPICalled callback. -/
def consoleAPICalledEntry (ev : ConsoleEvent) : LogEntry :=
  { type := LogType.console,
    level :=
      if ev.type = "error" then LogLevel.error
      else if ev.type = "warning" then LogLevel.warn
      else LogLevel.log,
    message := consoleEventMessage ev.args,
    timestamp := ev.timestamp,
    source := "context:" ++ toString ev.executionContextId }

/-- Delivery of one Runtime.consoleAPICalled event: the event emitter
invokes every listener registered for that name, and each invocation of
the (identical) callback appends one entry to the log buffer. -/
def fireConsoleAPICalled (client : CDPClient) (electronProcess : ElectronProcess)
    (ev : ConsoleEvent) : ElectronProcess :=
  { electronProcess with
      logBuffer := electronProcess.logBuffer ++
        List.replicate (client.listeners.count "Runtime.consoleAPICalled")
          (consoleAPICalledEntry ev) }

/-- Payload of Runtime.exceptionThrown (fields the callback reads). -/
structure ExceptionDetails where
  text : String
  url : Option String
deriving DecidableEq, Repr

/-- The LogEntry appended by the exceptionThrown callback; the JS
url-or-runtime fallback is on falsiness, so an absent url yields the
source tag runtime. -/
def exceptionThrownEntry (timestamp : Nat) (exceptionDetails : ExceptionDetails) : LogEntry :=
  { type := LogType.runtime,
    level := LogLevel.error,
    message := exceptionDetails.text,
    timestamp := timestamp,
    source := exceptionDetails.url.getD "runtime" }

/-- The LogEntry appended by the requestWillBeSent callback; the CDP
timestamp is in seconds and is scaled to milliseconds. -/
def requestWillBeSentEntry (method url : String) (timestamp : Nat) : LogEntry :=
  { type := LogType.network,
    level := LogLevel.info,
    message := method ++ " " ++ url,
    timestamp := timestamp * 1000,
    source := "network.request" }

/-- The LogEntry appended by the responseReceived callback: severity is
classified from the HTTP status code (at least 400 is error, at least 300
is warn, otherwise info). -/
def responseReceivedEntry (status : Nat) (url : String) (timestamp : Nat) : LogEntry :=
  { type := LogType.network,
    level :=
      if status ≥ 400 then LogLevel.error
      else if status ≥ 300 then LogLevel.warn
      else LogLevel.info,
    message := toString status ++ " " ++ url,
    timestamp := timestamp * 1000,
    source := "network.response" }

/-- The LogEntry appended by the securityStateChanged callback; its
timestamp is the wall clock at delivery time. -/
def securityStateChangedEntry (securityState summary : String) (now : Nat) : LogEntry :=
  { type := LogType.security,
    level := if securityState = "secure" then LogLevel.info else LogLevel.warn,
    message := "Security state changed: " ++ securityState ++ ". " ++ summary,
    timestamp := now,
    source := "security.state" }

/-- Outcome of one executeCDPCommand call: the result or propagated
error, the record afterwards, and the list of method-plus-params pairs
actually sent over the connection (the no-retry trace). -/
structure ExecOutcome where
  result : Except String JsonVal
  record : ElectronProcess
  sends : List (String × JsonVal)
deriving Repr

/-- The send-and-subscribe tail of executeCDPCommand, once a client is in
hand: send domain.command, and after a successful send subscribe to CDP
events only when the connection has no Runtime.consoleAPICalled listener
yet. On a send failure the catch block runs an UNGUARDED await of
client.close() (the closeResult oracle) and only then clears cdpClient:
when the close succeeds the original error is rethrown with the handle
cleared, but when the close itself throws, the clear is skipped - the
stale handle stays cached - and the close error replaces the original
one. -/
def execSend (client : CDPClient) (electronProcess : ElectronProcess)
    (domain command : String) (params : JsonVal)
    (sendResult : Except String JsonVal)
    (closeResult : Except String Unit) : ExecOutcome :=
  match sendResult with
  | Except.ok v =>
    let sub :=
      if client.listeners.count "Runtime.consoleAPICalled" = 0 then
        subscribeToCDPEvents client electronProcess
      else (client, electronProcess)
    { result := Except.ok v,
      record := { sub.2 with cdpClient := some sub.1 },
      sends := [(domain ++ "." ++ command, params)] }
  | Except.error e =>
    match closeResult with
    | Except.ok _ =>
      { result := Except.error e,
        record := { electronProcess with cdpClient := none },
        sends := [(domain ++ "." ++ command, params)] }
    | Except.error e2 =>
      { result := Except.error e2,
        record := electronProcess,
        sends := [(domain ++ "." ++ command, params)] }

/-- executeCDPCommand: reuse the cached cdpClient or connect lazily; in
the catch block the client is closed and discarded only when the local
client variable is set, which after a connection failure it is not (the
record then still has no cdpClient, and no close is attempted). -/
def executeCDPCommand (electronProcess : ElectronProcess) (targetId : String)
    (domain command : String) (params : JsonVal) (now : Nat)
    (disc : Except String (List CDPTarget)) (openResult : Except String Unit)
    (sendResult : Except String JsonVal)
    (closeResult : Except String Unit) : ExecOutcome :=
  match electronProcess.cdpClient with
  | none =>
    match connectToCDPTarget electronProcess targetId now disc openResult with
    | (Except.error e, ep1, _) => { result := Except.error e, record := ep1, sends := [] }
    | (Except.ok client, ep1, _) =>
        execSend client ep1 domain command params sendResult closeResult
  | some client => execSend client electronProcess domain command params sendResult closeResult

/-! ### process-manager module -/

/-- path.basename, as used for the display name of a started app. -/
def basename (p : String) : String :=
  match (p.splitOn "/").reverse with
  | [] => p
  | s :: _ => s

/-- JS string interpolation of a possibly-undefined port. -/
def portString : Option Nat → String
  | some p => toString p
  | none => "undefined"

/-- startElectronApp: allocate the Date.now based id, pick the debug port
(the caller value when truthy - port 0 is falsy in JS - else a
pseudo-random port in the 9222 to 9999 range, the randK oracle being the
sampled offset), build the record with status running and
reconnectAttempts 0, register it, and after the 2000 ms settle delay
attempt one target refresh whose failure is swallowed. The spawn itself
is the pid oracle; stdout/stderr wiring and the exit handler (handleExit)
are separate event deliveries. -/
def startElectronApp (appPath : String) (optPort : Option Nat)
    (optReconnect : Option Bool) (now pid randK : Nat)
    (disc : Except String (List CDPTarget)) (now3 : Nat) (R : Registry) :
    ElectronProcess × Registry :=
  let reconnect := optReconnect.getD false
  let debugPort :=
    match optPort with
    | some p => if p = 0 then 9222 + randK % 778 else p
    | none => 9222 + randK % 778
  let id := "electron-" ++ toString now
  let electronProcess : ElectronProcess :=
    { id := id,
      process := some pid,
      name := basename appPath,
      status := Status.running,
      pid := some pid,
      debugPort := some debugPort,
      startTime := now,
      logBuffer := [],
      appPath := appPath,
      reconnect := some reconnect,
      reconnectAttempts := some 0 }
  let R1 := regSet R id electronProcess
  let ep1 := (updateCDPTargets electronProcess now3 disc).2
  (ep1, regSet R1 id ep1)

/-- A reload scheduled by setTimeout from the exit handler. -/
structure ScheduledReload where
  delayMs : Nat
  appId : String
deriving DecidableEq, Repr

/-- The exit handler wired by startElectronApp: classify the exit code
(only 0 is a normal stop; any other code, or a null code from abnormal
termination, is a crash), close and drop the cdpClient, and when the
record crashed with reconnect enabled bump reconnectAttempts and - while
the count is within maxReconnects = 5 - schedule a reload after
2000 * attempts milliseconds; past the maximum nothing is scheduled. -/
def handleExit (electronProcess : ElectronProcess) (code : Option Int) :
    ElectronProcess × List ScheduledReload :=
  let status := if code = some 0 then Status.stopped else Status.crashed
  let ep1 := { electronProcess with status := status, cdpClient := none }
  if status = Status.crashed ∧ electronProcess.reconnect = some true then
    let maxReconnects := 5
    let attempts := electronProcess.reconnectAttempts.getD 0 + 1
    let ep2 := { ep1 with reconnectAttempts := some attempts }
    if attempts ≤ maxReconnects then
      (ep2, [{ delayMs := 2000 * attempts, appId := electronProcess.id }])
    else
      (ep2, [])
  else (ep1, [])

/-- stopElectronApp: unknown ids fail silently with false; otherwise the
cdpClient (when present) is closed inside a try/catch whose failure
(the closeResult oracle) is only logged, the owned child process (when
present) is killed, and the record is marked stopped and kept in the
registry. -/
def stopElectronApp (R : Registry) (id : String)
    (closeResult : Except String Unit) : Bool × Registry :=
  match regGet R id with
  | none => (false, R)
  | some electronProcess =>
    let _ := closeResult
    let ep1 := { electronProcess with cdpClient := none, status := Status.stopped }
    (true, regSet R id ep1)

/-- connectToExistingElectronApp: one synchronous target fetch (the fetch
oracle carries the parsed /json/list array or the transport/parse
failure, a non-array parse being a failure); an empty array is fatal.
On success an adopted record - no child process, appPath the sentinel
existing, the fetched target list - is registered under the
deterministic id electron-existing-(port). All failures are rethrown
wrapped, and nothing is registered. -/
def connectToExistingElectronApp (port : Nat)
    (fetch : Except String (List CDPTarget)) (now : Nat) (R : Registry) :
    Except String ElectronProcess × Registry :=
  match fetch with
  | Except.error e =>
      (Except.error ("Failed to connect to Electron app on port " ++ toString port ++ ": " ++ e), R)
  | Except.ok targets =>
    if targets.length = 0 then
      (Except.error ("Failed to connect to Electron app on port " ++ toString port ++
        ": No debuggable targets found"), R)
    else
      let id := "electron-existing-" ++ toString port
      let connectedEntry : LogEntry :=
        { type := LogType.console,
          level := LogLevel.info,
          message := "Connected to existing Electron app on port " ++ toString port,
          timestamp := now,
          source := "mcp-server" }
      let electronProcess : ElectronProcess :=
        { id := id,
          process := none,
          name := "Existing App (Port " ++ toString port ++ ")",
          status := Status.running,
          debugPort := some port,
          startTime := now,
          logBuffer := [connectedEntry],
          appPath := "existing",
          targets := some targets }
      (Except.ok electronProcess, regSet R id electronProcess)

/-- Observable steps of a reload, in order. -/
inductive ReloadAction where
  | stopOld
  | settleDelay (ms : Nat)
  | respawn (id : String)
deriving DecidableEq, Repr

/-- reloadElectronApp: unknown id is an error; a record whose appPath is
the adopted sentinel existing (or empty, the other JS-falsy path) is not
restartable and nothing is touched; otherwise stop the record, wait the
1500 ms settle delay, and start a fresh record with the same appPath,
debugPort and reconnect configuration. -/
def reloadElectronApp (R : Registry) (id : String) (now pid randK : Nat)
    (disc : Except String (List CDPTarget)) (now3 : Nat) :
    Except String ElectronProcess × Registry × List ReloadAction :=
  match regGet R id with
  | none =>
      (Except.error ("Process with id " ++ id ++ " not found for reloading."), R, [])
  | some electronProcess =>
    let appPath := electronProcess.appPath
    let debugPort := electronProcess.debugPort
    let reconnect := electronProcess.reconnect
    if appPath = "existing" ∨ appPath = "" then
      (Except.error ("Cannot reload an existing app connection (Port " ++
        portString debugPort ++ "). You must restart it manually."), R, [])
    else
      let stopped := stopElectronApp R id (Except.ok ())
      let started := startElectronApp appPath debugPort reconnect now pid randK disc now3 stopped.2
      (Except.ok started.1, started.2,
        [ReloadAction.stopOld, ReloadAction.settleDelay 1500, ReloadAction.respawn started.1.id])

/-- Scope argument of discoverApps. -/
inductive Scope where
  | managed
  | network
  | all
deriving DecidableEq, Repr

/-- discoverApps: the managed scope is a snapshot of the registry values;
the network scope is the scanForElectronApps port probe, pure I/O
represented by the scanResult oracle. -/
def discoverApps (R : Registry) (scope : Scope) (scanResult : List Nat) :
    List ElectronProcess × List Nat :=
  (if scope = Scope.managed ∨ scope = Scope.all then regValues R else [],
   if scope = Scope.network ∨ scope = Scope.all then scanResult else [])

/-- Delivery of a child-process exit event to the registry: the handler
closes over the record registered under the exited app id. -/
def applyExitEvent (R : Registry) (id : String) (code : Option Int) : Registry :=
  match regGet R id with
  | none => R
  | some electronProcess => regSet R id (handleExit electronProcess code).1

/-- Registry states reachable from the module-initial empty Map through
the exported operations and the wired event handlers. -/
inductive Reachable : Registry → Prop where
  | empty : Reachable []
  | start (appPath : String) (optPort : Option Nat) (optReconnect : Option Bool)
      (now pid randK : Nat) (disc : Except String (List CDPTarget)) (now3 : Nat)
      {R : Registry} : Reachable R →
      Reachable (startElectronApp appPath optPort optReconnect now pid randK disc now3 R).2
  | connect (port : Nat) (fetch : Except String (List CDPTarget)) (now : Nat)
      {R : Registry} : Reachable R →
      Reachable (connectToExistingElectronApp port fetch now R).2
  | stop (id : String) (closeResult : Except String Unit) {R : Registry} :
      Reachable R → Reachable (stopElectronApp R id closeResult).2
  | exitEvent (id : String) (code : Option Int) {R : Registry} :
      Reachable R → Reachable (applyExitEvent R id code)
  | reload (id : String) (now pid randK : Nat)
      (disc : Except String (List CDPTarget)) (now3 : Nat) {R : Registry} :
      Reachable R → Reachable (reloadElectronApp R id now pid randK disc now3).2.1

/-! ### The crash-recovery loop, unrolled

One round: the current app exits abnormally with code 1, its exit
handler runs, and the scheduled reload (when one was scheduled) fires,
making a respawned record the current app. The state threads the
registry, the current app id and the delays of every reload attempt
scheduled so far; the round counter k separates the Date.now values of
successive respawns. The initial-start and per-round target refreshes
fail (the app is crashing), which the supervisor swallows. -/

def abnormalExitRound (st : Registry × String × List Nat) (k : Nat) :
    Registry × String × List Nat :=
  let R := st.1
  let id := st.2.1
  let delays := st.2.2
  match regGet R id with
  | none => (R, id, delays)
  | some ep =>
    let fired := handleExit ep (some 1)
    let R1 := regSet R id fired.1
    let delays1 := delays ++ fired.2.map (fun s => s.delayMs)
    match fired.2 with
    | [] => (R1, id, delays1)
    | _ :: _ =>
      match reloadElectronApp R1 id (10 + k) (100 + k) 0 (Except.error "ECONNREFUSED") (20 + k) with
      | (Except.ok newProc, R2, _) => (R2, newProc.id, delays1)
      | (Except.error _, R2, _) => (R2, id, delays1)

/-- The record under test: started with reconnect enabled on port 9222
at Date.now = 1. -/
def crashChainInit : Registry × String × List Nat :=
  let started :=
    startElectronApp "/apps/demo" (some 9222) (some true) 1 99 0 (Except.error "ECONNREFUSED") 3 []
  (started.2, started.1.id, [])

/-- n consecutive abnormal exits with no intervening explicit stop. -/
def crashChain (n : Nat) : Registry × String × List Nat :=
  (List.range n).foldl abnormalExitRound crashChainInit

/-! ### Registry invariants -/

/-- Records without an owned child process are exactly the adopted ones,
marked by the appPath sentinel. -/
def AdoptedPathInv (R : Registry) : Prop :=
  ∀ p ∈ R, p.2.process = none → p.2.appPath = "existing"

/-- Every record is registered under its own id. -/
def KeyIdInv (R : Registry) : Prop := ∀ p ∈ R, p.2.id = p.1

/-- The invariants maintained by every registry operation. -/
def RegInvariant (R : Registry) : Prop :=
  (regKeys R).Nodup ∧ AdoptedPathInv R ∧ KeyIdInv R

/-! ### Concrete demonstration values -/

/-- The target of the spec discovery scenario. -/
def demoTarget : CDPTarget :=
  { id := "A", type := "page", title := "Demo", url := "file:///x" }

/-- A freshly opened connection handle (no listeners yet). -/
def demoClient : CDPClient := { target := "A", port := 9222 }

/-- A spawned, running record with a live connection handle. -/
def demoSpawnedApp : ElectronProcess :=
  { id := "electron-77",
    process := some 42,
    name := "demo",
    status := Status.running,
    pid := some 42,
    debugPort := some 9222,
    startTime := 77,
    appPath := "/apps/demo",
    cdpClient := some demoClient,
    targets := some [demoTarget],
    lastTargetUpdate := some 1000,
    reconnect := some false,
    reconnectAttempts := some 0,
    logBuffer := [] }

/-- A record whose last discovery returned an empty target array within
the freshness window. -/
def emptyFreshTargetsApp : ElectronProcess :=
  { demoSpawnedApp with targets := some [], lastTargetUpdate := some 1000, cdpClient := none }

/-- A record that has never fetched targets. -/
def staleTargetsApp : ElectronProcess :=
  { demoSpawnedApp with targets := none, lastTargetUpdate := none, cdpClient := none }

/-- The log entry connectToExistingElectronApp writes for port 9222 at
Date.now = 5. -/
def demoAdoptedEntry : LogEntry :=
  { type := LogType.console,
    level := LogLevel.info,
    message := "Connected to existing Electron app on port 9222",
    timestamp := 5,
    source := "mcp-server" }

/-- The adopted record built by connectToExistingElectronApp 9222 at
Date.now = 5 with one discovered target. -/
def demoAdoptedApp : ElectronProcess :=
  { id := "electron-existing-9222",
    process := none,
    name := "Existing App (Port 9222)",
    status := Status.running,
    debugPort := some 9222,
    startTime := 5,
    logBuffer := [demoAdoptedEntry],
    appPath := "existing",
    targets := some [demoTarget] }

/-- Registry after one successful connect to port 9222. -/
def firstConnectRegistry : Registry :=
  (connectToExistingElectronApp 9222 (Except.ok [demoTarget]) 5 []).2

/-- A one-record registry holding the spawned demo record. -/
def stopDemoRegistry : Registry := [("electron-77", demoSpawnedApp)]

/-- A running record with fresh targets but no open connection. -/
def disconnectedApp : ElectronProcess :=
  { demoSpawnedApp with cdpClient := none, logBuffer := [] }

/-- A remote console.log event with no arguments. -/
def demoConsoleEvent : ConsoleEvent :=
  { type := "log", args := [], executionContextId := 1, timestamp := 123 }

/-- One subscribeToCDPEvents call on a fresh connection. -/
def subscribeOnce : CDPClient × ElectronProcess :=
  subscribeToCDPEvents demoClient disconnectedApp

/-- A second subscribeToCDPEvents call on the same connection. -/
def subscribeTwice : CDPClient × ElectronProcess :=
  subscribeToCDPEvents subscribeOnce.1 subscribeOnce.2

/-! ### Registry map lemmas -/

theorem regGet_regSet_self (R : Registry) (k : String) (v : ElectronProcess) :
    regGet (regSet R k v) k = some v := by
  induction R with
  | nil => simp [regSet, regGet]
  | cons p rest ih =>
    obtain ⟨k0, w⟩ := p
    by_cases h : k0 = k
    · simp [regSet, h, regGet]
    · simp [regSet, h, regGet, ih]

theorem regGet_regSet_ne (R : Registry) (k k2 : String) (v : ElectronProcess)
    (h : k2 ≠ k) : regGet (regSet R k v) k2 = regGet R k2 := by
  induction R with
  | nil => simp [regSet, regGet, Ne.symm h]
  | cons p rest ih =>
    obtain ⟨k0, w⟩ := p
    by_cases h0 : k0 = k
    · subst h0
      simp [regSet, regGet, Ne.symm h]
    · by_cases h2 : k0 = k2
      · subst h2
        simp [regSet, h0, regGet, h]
      · simp [regSet, h0, regGet, h2, ih]

theorem mem_regKeys_regSet (R : Registry) (k : String) (v : ElectronProcess)
    (a : String) : a ∈ regKeys (regSet R k v) ↔ a ∈ regKeys R ∨ a = k := by
  induction R with
  | nil => simp [regSet, regKeys]
  | cons p rest ih =>
    obtain ⟨k0, w⟩ := p
    by_cases h : k0 = k
    · subst h
      simp [regSet, regKeys]
      tauto
    · simp [regSet, h, regKeys] at ih ⊢
      tauto

theorem regKeys_nodup_regSet (R : Registry) (k : String) (v : ElectronProcess)
    (h : (regKeys R).Nodup) : (regKeys (regSet R k v)).Nodup := by
  induction R with
  | nil => simp [regSet, regKeys]
  | cons p rest ih =>
    obtain ⟨k0, w⟩ := p
    rw [show regKeys ((k0, w) :: rest) = k0 :: regKeys rest from rfl, List.nodup_cons] at h
    by_cases hk : k0 = k
    · subst hk
      have hset : regSet ((k0, w) :: rest) k0 v = (k0, v) :: rest := by simp [regSet]
      rw [hset, show regKeys ((k0, v) :: rest) = k0 :: regKeys rest from rfl, List.nodup_cons]
      exact h
    · simp only [regSet, if_neg hk]
      rw [show regKeys ((k0, w) :: regSet rest k v) = k0 :: regKeys (regSet rest k v) from rfl,
        List.nodup_cons]
      refine ⟨?_, ih h.2⟩
      intro hmem
      rcases (mem_regKeys_regSet rest k v k0).mp hmem with h1 | h1
      · exact h.1 h1
      · exact hk h1

theorem regGet_mem (R : Registry) (k : String) (v : ElectronProcess)
    (h : regGet R k = some v) : (k, v) ∈ R := by
  induction R with
  | nil => simp [regGet] at h
  | cons p rest ih =>
    obtain ⟨k0, w⟩ := p
    by_cases hk : k0 = k
    · subst hk
      simp [regGet] at h
      subst h
      exact List.mem_cons_self _ _
    · simp [regGet, hk] at h
      exact List.mem_cons_of_mem _ (ih h)

theorem regGet_mem_regValues (R : Registry) (k : String) (v : ElectronProcess)
    (h : regGet R k = some v) : v ∈ regValues R := by
  have := regGet_mem R k v h
  simp [regValues]
  exact ⟨k, this⟩

/-! ### Invariant preservation -/

theorem adoptedPathInv_regSet (R : Registry) (k : String) (v : ElectronProcess)
    (h : AdoptedPathInv R) (hv : v.process = none → v.appPath = "existing") :
    AdoptedPathInv (regSet R k v) := by
  induction R with
  | nil =>
    intro p hp
    simp [regSet] at hp
    subst hp
    exact hv
  | cons q rest ih =>
    obtain ⟨k0, w⟩ := q
    have hw : (k0, w).2.process = none → (k0, w).2.appPath = "existing" :=
      h (k0, w) (List.mem_cons_self _ _)
    have hrest : AdoptedPathInv rest := fun p hp => h p (List.mem_cons_of_mem _ hp)
    by_cases hk : k0 = k
    · intro p hp
      simp [regSet, hk] at hp
      rcases hp with hp | hp
      · subst hp
        exact hv
      · exact hrest p hp
    · intro p hp
      simp [regSet, hk] at hp
      rcases hp with hp | hp
      · subst hp
        exact hw
      · exact ih hrest p hp

theorem keyIdInv_regSet (R : Registry) (k : String) (v : ElectronProcess)
    (h : KeyIdInv R) (hv : v.id = k) : KeyIdInv (regSet R k v) := by
  induction R with
  | nil =>
    intro p hp
    simp [regSet] at hp
    subst hp
    exact hv
  | cons q rest ih =>
    obtain ⟨k0, w⟩ := q
    have hw : (k0, w).2.id = (k0, w).1 := h (k0, w) (List.mem_cons_self _ _)
    have hrest : KeyIdInv rest := fun p hp => h p (List.mem_cons_of_mem _ hp)
    by_cases hk : k0 = k
    · intro p hp
      simp [regSet, hk] at hp
      rcases hp with hp | hp
      · subst hp
        exact hv
      · exact hrest p hp
    · intro p hp
      simp [regSet, hk] at hp
      rcases hp with hp | hp
      · subst hp
        exact hw
      · exact ih hrest p hp

theorem regInvariant_regSet (R : Registry) (k : String) (v : ElectronProcess)
    (h : RegInvariant R) (hid : v.id = k)
    (hp : v.process = none → v.appPath = "existing") :
    RegInvariant (regSet R k v) :=
  ⟨regKeys_nodup_regSet R k v h.1, adoptedPathInv_regSet R k v h.2.1 hp,
    keyIdInv_regSet R k v h.2.2 hid⟩

theorem updateCDPTargets_preserves (ep : ElectronProcess) (now : Nat)
    (disc : Except String (List CDPTarget)) :
    (updateCDPTargets ep now disc).2.process = ep.process ∧
    (updateCDPTargets ep now disc).2.appPath = ep.appPath ∧
    (updateCDPTargets ep now disc).2.id = ep.id := by
  cases hdp : ep.debugPort <;> cases disc <;> simp [updateCDPTargets, hdp]

theorem handleExit_preserves (ep : ElectronProcess) (code : Option Int) :
    (handleExit ep code).1.process = ep.process ∧
    (handleExit ep code).1.appPath = ep.appPath ∧
    (handleExit ep code).1.id = ep.id := by
  by_cases hc : code = some 0 <;>
    by_cases hr : ep.reconnect = some true <;>
      by_cases ha : ep.reconnectAttempts.getD 0 + 1 ≤ 5 <;>
        simp [handleExit, hc, hr, ha]

theorem regInvariant_empty : RegInvariant [] := by
  refine ⟨by simp [regKeys], ?_, ?_⟩ <;> intro p hp <;> simp at hp

theorem regInvariant_start (appPath : String) (optPort : Option Nat)
    (optReconnect : Option Bool) (now pid randK : Nat)
    (disc : Except String (List CDPTarget)) (now3 : Nat) (R : Registry)
    (h : RegInvariant R) :
    RegInvariant (startElectronApp appPath optPort optReconnect now pid randK disc now3 R).2 := by
  simp only [startElectronApp]
  refine regInvariant_regSet _ _ _ ?_ ?_ ?_
  · refine regInvariant_regSet _ _ _ h ?_ ?_
    · rfl
    · intro hnone
      simp at hnone
  · exact (updateCDPTargets_preserves _ _ _).2.2
  · intro hnone
    rw [(updateCDPTargets_preserves _ _ _).1] at hnone
    simp at hnone

theorem regInvariant_connect (port : Nat) (fetch : Except String (List CDPTarget))
    (now : Nat) (R : Registry) (h : RegInvariant R) :
    RegInvariant (connectToExistingElectronApp port fetch now R).2 := by
  cases fetch with
  | error e => simpa [connectToExistingElectronApp] using h
  | ok targets =>
    by_cases hlen : targets.length = 0
    · simpa [connectToExistingElectronApp, hlen] using h
    · simp only [connectToExistingElectronApp, hlen, if_neg]
      exact regInvariant_regSet _ _ _ h rfl (fun _ => rfl)

theorem regInvariant_stop (R : Registry) (id : String)
    (closeResult : Except String Unit) (h : RegInvariant R) :
    RegInvariant (stopElectronApp R id closeResult).2 := by
  cases hget : regGet R id with
  | none => simpa [stopElectronApp, hget] using h
  | some ep =>
    have hmem := regGet_mem R id ep hget
    simp only [stopElectronApp, hget]
    exact regInvariant_regSet _ _ _ h (h.2.2 (id, ep) hmem)
      (fun hp => h.2.1 (id, ep) hmem hp)

theorem regInvariant_exitEvent (R : Registry) (id : String) (code : Option Int)
    (h : RegInvariant R) : RegInvariant (applyExitEvent R id code) := by
  cases hget : regGet R id with
  | none => simpa [applyExitEvent, hget] using h
  | some ep =>
    have hmem := regGet_mem R id ep hget
    have hpres := handleExit_preserves ep code
    simp only [applyExitEvent, hget]
    apply regInvariant_regSet _ _ _ h
    · rw [hpres.2.2]
      exact h.2.2 (id, ep) hmem
    · intro hp
      rw [hpres.2.1]
      apply h.2.1 (id, ep) hmem
      rw [← hpres.1]
      exact hp

theorem regInvariant_reload (R : Registry) (id : String) (now pid randK : Nat)
    (disc : Except String (List CDPTarget)) (now3 : Nat) (h : RegInvariant R) :
    RegInvariant (reloadElectronApp R id now pid randK disc now3).2.1 := by
  cases hget : regGet R id with
  | none => simpa [reloadElectronApp, hget] using h
  | some ep =>
    by_cases hpath : ep.appPath = "existing" ∨ ep.appPath = ""
    · simpa [reloadElectronApp, hget, hpath] using h
    · simp only [reloadElectronApp, hget, hpath, if_neg, not_false_iff]
      exact regInvariant_start _ _ _ _ _ _ _ _ _ (regInvariant_stop _ _ _ h)

theorem reachable_regInvariant (R : Registry) (h : Reachable R) : RegInvariant R := by
  induction h with
  | empty => exact regInvariant_empty
  | start appPath optPort optReconnect now pid randK disc now3 _ ih =>
    exact regInvariant_start _ _ _ _ _ _ _ _ _ ih
  | connect port fetch now _ ih => exact regInvariant_connect _ _ _ _ ih
  | stop id closeResult _ ih => exact regInvariant_stop _ _ _ ih
  | exitEvent id code _ ih => exact regInvariant_exitEvent _ _ _ ih
  | reload id now pid randK disc now3 _ ih => exact regInvariant_reload _ _ _ _ _ _ _ ih

theorem regIds_eq_regKeys (R : Registry) (h : KeyIdInv R) :
    R.map (fun p => p.2.id) = regKeys R := by
  induction R with
  | nil => rfl
  | cons p rest ih =>
    have h1 : p.2.id = p.1 := h p (List.mem_cons_self _ _)
    have h2 : KeyIdInv rest := fun q hq => h q (List.mem_cons_of_mem _ hq)
    simp [regKeys] at ih ⊢
    exact ⟨h1, ih h2⟩

theorem fireConsoleAPICalled_length (client : CDPClient) (ep : ElectronProcess)
    (ev : ConsoleEvent) :
    (fireConsoleAPICalled client ep ev).logBuffer.length =
      ep.logBuffer.length + client.listeners.count "Runtime.consoleAPICalled" := by
  simp [fireConsoleAPICalled]

theorem cdpEventNames_console_count :
    cdpEventNames.count "Runtime.consoleAPICalled" = 1 := by decide

theorem subscribeToCDPEvents_console_count (client : CDPClient) (ep : ElectronProcess) :
    (subscribeToCDPEvents client ep).1.listeners.count "Runtime.consoleAPICalled" =
      client.listeners.count "Runtime.consoleAPICalled" + 1 := by
  simp [subscribeToCDPEvents, List.count_append, cdpEventNames_console_count]

theorem execSend_ok_subscribed (client : CDPClient) (ep : ElectronProcess)
    (domain command : String) (params : JsonVal) (sendResult : Except String JsonVal)
    (closeResult : Except String Unit) (v : JsonVal)
    (hcount : client.listeners.count "Runtime.consoleAPICalled" ≤ 1)
    (hok : (execSend client ep domain command params sendResult closeResult).result
      = Except.ok v) :
    ∃ c2, (execSend client ep domain command params sendResult closeResult).record.cdpClient
        = some c2 ∧
      c2.listeners.count "Runtime.consoleAPICalled" = 1 := by
  cases sendResult with
  | error e => cases closeResult <;> simp [execSend] at hok
  | ok w =>
    by_cases hz : client.listeners.count "Runtime.consoleAPICalled" = 0
    · refine ⟨(subscribeToCDPEvents client ep).1, ?_, ?_⟩
      · simp [execSend, hz]
      · rw [subscribeToCDPEvents_console_count, hz]
    · have h1 : client.listeners.count "Runtime.consoleAPICalled" = 1 := by omega
      exact ⟨client, by simp [execSend, hz], h1⟩

theorem connectToCDPTarget_ok_listeners (ep : ElectronProcess) (targetId : String)
    (now : Nat) (disc : Except String (List CDPTarget)) (openResult : Except String Unit)
    (client : CDPClient)
    (h : (connectToCDPTarget ep targetId now disc openResult).1 = Except.ok client) :
    client.listeners = [] := by
  unfold connectToCDPTarget at h
  cases hdp : ep.debugPort with
  | none => rw [hdp] at h; simp at h
  | some port =>
    rw [hdp] at h
    by_cases href : needsTargetRefresh ep now
    · cases disc with
      | error e0 => simp [href, updateCDPTargets, hdp] at h
      | ok ts =>
        simp only [href, if_true, updateCDPTargets, hdp, Option.getD_some] at h
        cases hfind : ts.find? (fun t => t.id = targetId) with
        | none => rw [hfind] at h; simp at h
        | some t =>
          rw [hfind] at h
          cases openResult with
          | error e1 => simp at h
          | ok u =>
            simp at h
            subst h
            rfl
    · simp only [href, Bool.false_eq_true, if_false] at h
      cases hfind : (ep.targets.getD []).find? (fun t => t.id = targetId) with
      | none => rw [hfind] at h; simp at h
      | some t =>
        rw [hfind] at h
        cases openResult with
        | error e1 => simp at h
        | ok u =>
          simp at h
          subst h
          rfl

theorem connectToCDPTarget_error_cdpClient (ep : ElectronProcess) (targetId : String)
    (now : Nat) (disc : Except String (List CDPTarget)) (openResult : Except String Unit)
    (e : String)
    (h : (connectToCDPTarget ep targetId now disc openResult).1 = Except.error e) :
    (connectToCDPTarget ep targetId now disc openResult).2.1.cdpClient = ep.cdpClient := by
  unfold connectToCDPTarget at h ⊢
  cases hdp : ep.debugPort with
  | none => simp [hdp]
  | some port =>
    simp only [hdp] at h ⊢
    by_cases href : needsTargetRefresh ep now
    · cases disc with
      | error e2 =>
        cases hdp2 : ep.debugPort <;> simp_all [updateCDPTargets, hdp]
      | ok ts =>
        simp only [href, if_true, updateCDPTargets, hdp] at h ⊢
        set ep1 : ElectronProcess :=
          { ep with targets := some ts, lastTargetUpdate := some now } with hep1
        cases hfind : (ep1.targets.getD []).find? (fun t => t.id = targetId) with
        | none => simp [hfind]
        | some t =>
          simp only [hfind] at h ⊢
          cases openResult with
          | error e2 => simp
          | ok u => simp at h
    · simp only [href, if_false, Bool.false_eq_true] at h ⊢
      cases hfind : (ep.targets.getD []).find? (fun t => t.id = targetId) with
      | none => simp [hfind]
      | some t =>
        simp only [hfind] at h ⊢
        cases openResult with
        | error e2 => simp
        | ok u => simp at h

/-! ### Claims -/

/-- C1: code behaviour at the failing input. A record started with
reconnect enabled on port 9222 undergoes 6 consecutive abnormal exits
(exit code 1, no intervening explicit stop), each scheduled reload
firing before the next crash. The code schedules a reload attempt after
every one of the 6 exits - not exactly 5 - and every delay is the base
2000 ms (2000 * 1, never increasing), because each reload respawns a
fresh record with reconnectAttempts reset to 0; after the 6th abnormal
exit the chain is again a running record with reconnectAttempts 0
rather than a permanently crashed one. -/
theorem C1_crash_recovery_unbounded :
    (crashChain 6).2.2 = [2000, 2000, 2000, 2000, 2000, 2000] ∧
    (crashChain 6).2.2.length = 6 ∧
    (regGet (crashChain 6).1 (crashChain 6).2.1).map (fun ep => ep.status)
      = some Status.running ∧
    (regGet (crashChain 6).1 (crashChain 6).2.1).map (fun ep => ep.reconnectAttempts)
      = some (some 0) :=
  ⟨by decide, by decide, by decide, by decide⟩

/-- C2, counterexample: the claim that a start or connect never allocates
an id already registered is false. After one successful connect to port
9222 the registry holds a record with id electron-existing-9222; a second
successful connect to the same port allocates that very id again and
silently replaces the live record (the registry afterwards holds only the
replacement, with the new startTime 6 instead of 5). -/
theorem C2_counterexample :
    (regGet firstConnectRegistry "electron-existing-9222").isSome = true ∧
    (connectToExistingElectronApp 9222 (Except.ok [demoTarget]) 6 firstConnectRegistry).1.map
      (fun ep => ep.id) = Except.ok "electron-existing-9222" ∧
    (connectToExistingElectronApp 9222 (Except.ok [demoTarget]) 6 firstConnectRegistry).2.map
      (fun p => p.2.startTime) = [6] :=
  ⟨by decide, by decide, by decide⟩

/-- C2, amended: distinct records simultaneously present in the registry
always have distinct ids, because the registry is a map keyed by id and
registering an existing id replaces that record in place; what fails is
freshness of allocation - connect deterministically reuses
electron-existing-(port), replacing the live record for that port, and
the Date.now based start id can likewise collide within a millisecond. -/
theorem C2_registry_ids_distinct (R : Registry) (h : Reachable R) :
    (R.map (fun p => p.2.id)).Nodup := by
  have hinv := reachable_regInvariant R h
  rw [regIds_eq_regKeys R hinv.2.2]
  exact hinv.1

/-- C2, witness: the distinct-ids invariant evaluated on the concrete
reachable registry produced by one connect. -/
theorem C2_registry_ids_distinct_witness :
    (firstConnectRegistry.map (fun p => p.2.id)).Nodup :=
  C2_registry_ids_distinct firstConnectRegistry
    (Reachable.connect 9222 (Except.ok [demoTarget]) 5 Reachable.empty)

/-- C6: connect on an adopted process fetches the target list once; on
any failure (transport error, or an empty target array) it fails with the
wrapped discovery error and registers nothing, the registry being
unchanged; on success it registers, under the allocated id, a record with
no owned child process whose target list is exactly the fetched one. -/
theorem C6_connect_existing (port : Nat) (fetch : Except String (List CDPTarget))
    (now : Nat) (R : Registry) :
    (∀ e, (connectToExistingElectronApp port fetch now R).1 = Except.error e →
      (connectToExistingElectronApp port fetch now R).2 = R) ∧
    (∀ e, fetch = Except.error e →
      (connectToExistingElectronApp port fetch now R).1 =
        Except.error ("Failed to connect to Electron app on port " ++ toString port ++ ": " ++ e)) ∧
    (fetch = Except.ok [] →
      (connectToExistingElectronApp port fetch now R).1 =
        Except.error ("Failed to connect to Electron app on port " ++ toString port ++
          ": No debuggable targets found")) ∧
    (∀ ts, fetch = Except.ok ts → ts ≠ [] →
      ∃ ep, (connectToExistingElectronApp port fetch now R).1 = Except.ok ep ∧
        ep.process = none ∧ ep.targets = some ts ∧
        (connectToExistingElectronApp port fetch now R).2 = regSet R ep.id ep) := by
  refine ⟨?_, ?_, ?_, ?_⟩
  · intro e he
    cases fetch with
    | error e0 => rfl
    | ok ts =>
      by_cases hlen : ts.length = 0
      · simp [connectToExistingElectronApp, hlen]
      · simp [connectToExistingElectronApp, hlen] at he
  · intro e hf
    subst hf
    rfl
  · intro hf
    subst hf
    rfl
  · intro ts hf hne
    subst hf
    have hlen : ¬ ts.length = 0 := by simpa using hne
    unfold connectToExistingElectronApp
    dsimp only
    rw [if_neg hlen]
    exact ⟨_, rfl, rfl, rfl, rfl⟩

/-- C6, witness: the success case evaluated at port 9222 with one fetched
target on the empty registry. -/
theorem C6_connect_existing_witness :
    ([demoTarget] : List CDPTarget) ≠ [] ∧
    (∃ ep, (connectToExistingElectronApp 9222 (Except.ok [demoTarget]) 5 []).1 = Except.ok ep ∧
      ep.process = none ∧ ep.targets = some [demoTarget] ∧
      (connectToExistingElectronApp 9222 (Except.ok [demoTarget]) 5 []).2 = regSet [] ep.id ep) :=
  ⟨by decide,
    (C6_connect_existing 9222 (Except.ok [demoTarget]) 5 []).2.2.2 [demoTarget] rfl (by decide)⟩

/-- C7: reload of an adopted record - one with no owned child process,
which in every reachable registry carries the appPath sentinel existing -
fails with the not-restartable error and performs nothing: the registry
(hence the record, status included) is unchanged and no stop, settle
delay or respawn action is taken. -/
theorem C7_reload_adopted_fails (R : Registry) (id : String)
    (electronProcess : ElectronProcess) (now pid randK : Nat)
    (disc : Except String (List CDPTarget)) (now3 : Nat)
    (hR : Reachable R) (hget : regGet R id = some electronProcess)
    (hAdopted : electronProcess.process = none) :
    reloadElectronApp R id now pid randK disc now3 =
      (Except.error ("Cannot reload an existing app connection (Port " ++
        portString electronProcess.debugPort ++ "). You must restart it manually."), R, []) := by
  have hinv := reachable_regInvariant R hR
  have hpath : electronProcess.appPath = "existing" :=
    hinv.2.1 (id, electronProcess) (regGet_mem R id electronProcess hget) hAdopted
  simp [reloadElectronApp, hget, hpath]

/-- C7, witness: reload of the concrete adopted record created by connect
on port 9222 fails and changes nothing. -/
theorem C7_reload_adopted_fails_witness :
    regGet firstConnectRegistry "electron-existing-9222" = some demoAdoptedApp ∧
    demoAdoptedApp.process = none ∧
    reloadElectronApp firstConnectRegistry "electron-existing-9222" 7 101 0
        (Except.error "refused") 8 =
      (Except.error ("Cannot reload an existing app connection (Port " ++
        portString demoAdoptedApp.debugPort ++ "). You must restart it manually."),
        firstConnectRegistry, []) :=
  ⟨by decide, rfl,
    C7_reload_adopted_fails firstConnectRegistry "electron-existing-9222" demoAdoptedApp
      7 101 0 (Except.error "refused") 8
      (Reachable.connect 9222 (Except.ok [demoTarget]) 5 Reachable.empty) (by decide) rfl⟩

/-- C8: stop on an id absent from the registry returns false without
throwing and changes nothing; stop on a registered id returns true and
leaves the record registered with status stopped and no cdpClient handle,
and its result does not depend on whether closing the live connection
threw (close errors are only logged, never propagated). -/
theorem C8_stop_behavior (R : Registry) (id : String)
    (electronProcess : ElectronProcess) (closeResult : Except String Unit) :
    (regGet R id = none → stopElectronApp R id closeResult = (false, R)) ∧
    (regGet R id = some electronProcess →
      (stopElectronApp R id closeResult).1 = true ∧
      regGet (stopElectronApp R id closeResult).2 id =
        some { electronProcess with status := Status.stopped, cdpClient := none } ∧
      (∀ closeResult2 : Except String Unit,
        stopElectronApp R id closeResult = stopElectronApp R id closeResult2)) := by
  constructor
  · intro h
    simp [stopElectronApp, h]
  · intro h
    refine ⟨by simp [stopElectronApp, h], ?_, fun c2 => rfl⟩
    simp only [stopElectronApp, h]
    exact regGet_regSet_self R id _

/-- C8, witness: stop evaluated on a concrete registry, at an unknown id
and at a registered id whose connection close throws. -/
theorem C8_stop_behavior_witness :
    regGet stopDemoRegistry "missing" = none ∧
    stopElectronApp stopDemoRegistry "missing" (Except.ok ()) = (false, stopDemoRegistry) ∧
    regGet stopDemoRegistry "electron-77" = some demoSpawnedApp ∧
    (stopElectronApp stopDemoRegistry "electron-77" (Except.error "close failed")).1 = true ∧
    regGet (stopElectronApp stopDemoRegistry "electron-77" (Except.error "close failed")).2
      "electron-77" = some { demoSpawnedApp with status := Status.stopped, cdpClient := none } :=
  ⟨by decide,
    (C8_stop_behavior stopDemoRegistry "missing" demoSpawnedApp (Except.ok ())).1 (by decide),
    by decide,
    ((C8_stop_behavior stopDemoRegistry "electron-77" demoSpawnedApp
      (Except.error "close failed")).2 (by decide)).1,
    ((C8_stop_behavior stopDemoRegistry "electron-77" demoSpawnedApp
      (Except.error "close failed")).2 (by decide)).2.1⟩

/-- C9: the exit handler classifies the exit code of a spawned record:
exit code 0 yields status stopped; any non-zero code, or a null code from
abnormal termination, yields status crashed. -/
theorem C9_exit_code_classification (electronProcess : ElectronProcess) :
    (handleExit electronProcess (some 0)).1.status = Status.stopped ∧
    (∀ code : Option Int, code ≠ some 0 →
      (handleExit electronProcess code).1.status = Status.crashed) := by
  constructor
  · by_cases hr : electronProcess.reconnect = some true <;> simp [handleExit, hr]
  · intro code hc
    by_cases hr : electronProcess.reconnect = some true <;>
      by_cases ha : electronProcess.reconnectAttempts.getD 0 + 1 ≤ 5 <;>
        simp [handleExit, hc, hr, ha]

/-- C9, witness: classification evaluated on the concrete spawned record
at exit codes 0, null and 1. -/
theorem C9_exit_code_classification_witness :
    (handleExit demoSpawnedApp (some 0)).1.status = Status.stopped ∧
    (handleExit demoSpawnedApp none).1.status = Status.crashed ∧
    (handleExit demoSpawnedApp (some 1)).1.status = Status.crashed :=
  ⟨(C9_exit_code_classification demoSpawnedApp).1,
    (C9_exit_code_classification demoSpawnedApp).2 none (by decide),
    (C9_exit_code_classification demoSpawnedApp).2 (some 1) (by decide)⟩

/-- C10: stop on a registered id keeps the record in the registry and
mutates only its status and cdpClient fields (the record afterwards is
exactly the old one with status stopped and no cdpClient, so id, appPath,
debugPort, startTime, logBuffer, targets and the reconnect state are
unchanged); every other entry of the registry is untouched; the record
still appears in the managed scope of discoverApps; and a second stop on
the same id also returns true. -/
theorem C10_stop_frame (R : Registry) (id : String)
    (electronProcess : ElectronProcess) (closeResult : Except String Unit)
    (scanResult : List Nat) (h : regGet R id = some electronProcess) :
    (stopElectronApp R id closeResult).1 = true ∧
    regGet (stopElectronApp R id closeResult).2 id =
      some { electronProcess with status := Status.stopped, cdpClient := none } ∧
    (∀ j, j ≠ id → regGet (stopElectronApp R id closeResult).2 j = regGet R j) ∧
    { electronProcess with status := Status.stopped, cdpClient := none } ∈
      (discoverApps (stopElectronApp R id closeResult).2 Scope.managed scanResult).1 ∧
    (stopElectronApp (stopElectronApp R id closeResult).2 id closeResult).1 = true := by
  have h2 : (stopElectronApp R id closeResult).2 =
      regSet R id { electronProcess with cdpClient := none, status := Status.stopped } := by
    simp [stopElectronApp, h]
  have hget2 : regGet (stopElectronApp R id closeResult).2 id =
      some { electronProcess with status := Status.stopped, cdpClient := none } := by
    rw [h2]
    exact regGet_regSet_self R id _
  refine ⟨by simp [stopElectronApp, h], hget2, ?_, ?_, ?_⟩
  · intro j hj
    rw [h2]
    exact regGet_regSet_ne R id j _ hj
  · have hmem := regGet_mem_regValues _ id _ hget2
    simpa [discoverApps] using hmem
  · simp [stopElectronApp, h, regGet_regSet_self]

/-- C10, witness: the stop frame property evaluated on a concrete
registry holding one spawned record with a live connection. -/
theorem C10_stop_frame_witness :
    regGet stopDemoRegistry "electron-77" = some demoSpawnedApp ∧
    ((stopElectronApp stopDemoRegistry "electron-77" (Except.ok ())).1 = true ∧
      regGet (stopElectronApp stopDemoRegistry "electron-77" (Except.ok ())).2 "electron-77" =
        some { demoSpawnedApp with status := Status.stopped, cdpClient := none } ∧
      (∀ j, j ≠ "electron-77" →
        regGet (stopElectronApp stopDemoRegistry "electron-77" (Except.ok ())).2 j =
          regGet stopDemoRegistry j) ∧
      { demoSpawnedApp with status := Status.stopped, cdpClient := none } ∈
        (discoverApps (stopElectronApp stopDemoRegistry "electron-77" (Except.ok ())).2
          Scope.managed []).1 ∧
      (stopElectronApp (stopElectronApp stopDemoRegistry "electron-77" (Except.ok ())).2
        "electron-77" (Except.ok ())).1 = true) :=
  ⟨by decide,
    C10_stop_frame stopDemoRegistry "electron-77" demoSpawnedApp (Except.ok ()) [] (by decide)⟩

/-- C3, counterexample: subscribeToCDPEvents itself is not idempotent.
On a fresh connection, calling it twice registers duplicate listeners,
and one remote console event then appends two log entries - not the
exactly one entry the claim demands, and not the same as calling it
once, which appends one. -/
theorem C3_counterexample :
    (fireConsoleAPICalled subscribeTwice.1 subscribeTwice.2 demoConsoleEvent).logBuffer.length
      = 2 ∧
    ¬ (fireConsoleAPICalled subscribeTwice.1 subscribeTwice.2 demoConsoleEvent).logBuffer.length
      = 1 ∧
    (fireConsoleAPICalled subscribeOnce.1 subscribeOnce.2 demoConsoleEvent).logBuffer.length
      = 1 :=
  ⟨by decide, by decide, by decide⟩

/-- C3, amended: idempotence holds one level up, where the source guards
the subscription. executeCDPCommand subscribes only when the connection
has no Runtime.consoleAPICalled listener, so for any record whose cached
connection carries at most one such listener (fresh connections carry
none), a successful command leaves exactly one listener registered and a
single remote console event appends exactly one log entry. -/
theorem C3_execute_subscribes_once (electronProcess : ElectronProcess)
    (targetId domain command : String) (params : JsonVal) (now : Nat)
    (disc : Except String (List CDPTarget)) (openResult : Except String Unit)
    (sendResult : Except String JsonVal) (closeResult : Except String Unit)
    (v : JsonVal) (ev : ConsoleEvent)
    (hclient : ∀ c, electronProcess.cdpClient = some c →
      c.listeners.count "Runtime.consoleAPICalled" ≤ 1)
    (hok : (executeCDPCommand electronProcess targetId domain command params now disc
      openResult sendResult closeResult).result = Except.ok v) :
    ∃ c2, (executeCDPCommand electronProcess targetId domain command params now disc
        openResult sendResult closeResult).record.cdpClient = some c2 ∧
      c2.listeners.count "Runtime.consoleAPICalled" = 1 ∧
      (fireConsoleAPICalled c2 (executeCDPCommand electronProcess targetId domain command
        params now disc openResult sendResult closeResult).record ev).logBuffer.length =
        (executeCDPCommand electronProcess targetId domain command params now disc
          openResult sendResult closeResult).record.logBuffer.length + 1 := by
  cases hcc : electronProcess.cdpClient with
  | some client =>
    have hcount := hclient client hcc
    have heq : executeCDPCommand electronProcess targetId domain command params now disc
        openResult sendResult closeResult
        = execSend client electronProcess domain command params sendResult closeResult := by
      unfold executeCDPCommand
      rw [hcc]
    rw [heq] at hok ⊢
    obtain ⟨c2, hrec, hone⟩ :=
      execSend_ok_subscribed client electronProcess domain command params sendResult closeResult
        v hcount hok
    exact ⟨c2, hrec, hone, by rw [fireConsoleAPICalled_length, hone]⟩
  | none =>
    rcases hcr : connectToCDPTarget electronProcess targetId now disc openResult with ⟨res, ep1, tr⟩
    have heq : executeCDPCommand electronProcess targetId domain command params now disc
        openResult sendResult closeResult =
        (match connectToCDPTarget electronProcess targetId now disc openResult with
          | (Except.error e, ep2, _) => { result := Except.error e, record := ep2, sends := [] }
          | (Except.ok client, ep2, _) =>
              execSend client ep2 domain command params sendResult closeResult) := by
      unfold executeCDPCommand
      rw [hcc]
    rw [heq, hcr] at hok ⊢
    cases res with
    | error e => simp at hok
    | ok client =>
      have hl : client.listeners = [] :=
        connectToCDPTarget_ok_listeners electronProcess targetId now disc openResult client
          (by rw [hcr])
      have hcount : client.listeners.count "Runtime.consoleAPICalled" ≤ 1 := by
        rw [hl]
        simp
      have hok2 : (execSend client ep1 domain command params sendResult closeResult).result
          = Except.ok v := hok
      obtain ⟨c2, hrec, hone⟩ :=
        execSend_ok_subscribed client ep1 domain command params sendResult closeResult v hcount hok2
      exact ⟨c2, hrec, hone, by rw [fireConsoleAPICalled_length, hone]⟩

/-- C3, witness: the guarded subscription evaluated at a concrete record
with no cached connection and a successful command. -/
theorem C3_execute_subscribes_once_witness :
    (executeCDPCommand disconnectedApp "A" "Runtime" "evaluate" (JsonVal.str "1+1") 1000
      (Except.ok [demoTarget]) (Except.ok ()) (Except.ok (JsonVal.num 2)) (Except.ok ())).result
        = Except.ok (JsonVal.num 2) ∧
    (∃ c2, (executeCDPCommand disconnectedApp "A" "Runtime" "evaluate" (JsonVal.str "1+1") 1000
        (Except.ok [demoTarget]) (Except.ok ()) (Except.ok (JsonVal.num 2))
        (Except.ok ())).record.cdpClient = some c2 ∧
      c2.listeners.count "Runtime.consoleAPICalled" = 1 ∧
      (fireConsoleAPICalled c2 (executeCDPCommand disconnectedApp "A" "Runtime" "evaluate"
        (JsonVal.str "1+1") 1000 (Except.ok [demoTarget]) (Except.ok ())
        (Except.ok (JsonVal.num 2)) (Except.ok ())).record demoConsoleEvent).logBuffer.length =
        (executeCDPCommand disconnectedApp "A" "Runtime" "evaluate" (JsonVal.str "1+1") 1000
          (Except.ok [demoTarget]) (Except.ok ()) (Except.ok (JsonVal.num 2))
          (Except.ok ())).record.logBuffer.length + 1) :=
  ⟨by decide,
    C3_execute_subscribes_once disconnectedApp "A" "Runtime" "evaluate" (JsonVal.str "1+1") 1000
      (Except.ok [demoTarget]) (Except.ok ()) (Except.ok (JsonVal.num 2)) (Except.ok ())
      (JsonVal.num 2) demoConsoleEvent (fun c hc => Option.noConfusion hc) (by decide)⟩

/-- C4, counterexample: the claim that every failure leaves cdpClient
absent is false on the code. With a cached connection, when the command
fails and the unguarded await of client.close() in the catch block itself
throws, the line clearing cdpClient is skipped: the call fails with the
close error (not the original command error) and the stale handle is
still cached on the record. -/
theorem C4_counterexample :
    (executeCDPCommand demoSpawnedApp "A" "Runtime" "evaluate" (JsonVal.str "1+1") 1000
      (Except.ok [demoTarget]) (Except.ok ()) (Except.error "ProtocolError")
      (Except.error "close failed")).result = Except.error "close failed" ∧
    ¬ (executeCDPCommand demoSpawnedApp "A" "Runtime" "evaluate" (JsonVal.str "1+1") 1000
      (Except.ok [demoTarget]) (Except.ok ()) (Except.error "ProtocolError")
      (Except.error "close failed")).result = Except.error "ProtocolError" ∧
    (executeCDPCommand demoSpawnedApp "A" "Runtime" "evaluate" (JsonVal.str "1+1") 1000
      (Except.ok [demoTarget]) (Except.ok ()) (Except.error "ProtocolError")
      (Except.error "close failed")).record.cdpClient = some demoClient ∧
    ¬ (executeCDPCommand demoSpawnedApp "A" "Runtime" "evaluate" (JsonVal.str "1+1") 1000
      (Except.ok [demoTarget]) (Except.ok ()) (Except.error "ProtocolError")
      (Except.error "close failed")).record.cdpClient = none :=
  ⟨by decide, by decide, by decide, by decide⟩

/-- C4, amended: when executeCDPCommand fails, the command was sent at
most once (the failed command is never retried); a connection-open
failure propagates the error and leaves cdpClient absent (the local
client variable is unset, so no close is attempted); a command failure
closes the connection - when the close succeeds the original error is
propagated and cdpClient is absent afterwards, forcing the next call to
reconnect, but when the unguarded close itself throws, the close error is
propagated instead and the stale handle remains cached. -/
theorem C4_execute_failure_behavior (electronProcess : ElectronProcess)
    (targetId domain command : String) (params : JsonVal) (now : Nat)
    (disc : Except String (List CDPTarget)) (openResult : Except String Unit)
    (sendResult : Except String JsonVal) (closeResult : Except String Unit) :
    (∀ e, (executeCDPCommand electronProcess targetId domain command params now disc
        openResult sendResult closeResult).result = Except.error e →
      (executeCDPCommand electronProcess targetId domain command params now disc
        openResult sendResult closeResult).sends.length ≤ 1) ∧
    (∀ e, (executeCDPCommand electronProcess targetId domain command params now disc
        openResult sendResult closeResult).result = Except.error e →
      closeResult = Except.ok () →
      (executeCDPCommand electronProcess targetId domain command params now disc
        openResult sendResult closeResult).record.cdpClient = none) ∧
    (∀ e, (executeCDPCommand electronProcess targetId domain command params now disc
        openResult sendResult closeResult).result = Except.error e →
      (executeCDPCommand electronProcess targetId domain command params now disc
        openResult sendResult closeResult).sends = [] →
      (executeCDPCommand electronProcess targetId domain command params now disc
        openResult sendResult closeResult).record.cdpClient = none) ∧
    (∀ c e0 e2, electronProcess.cdpClient = some c → sendResult = Except.error e0 →
      closeResult = Except.error e2 →
      (executeCDPCommand electronProcess targetId domain command params now disc
        openResult sendResult closeResult).result = Except.error e2 ∧
      (executeCDPCommand electronProcess targetId domain command params now disc
        openResult sendResult closeResult).record.cdpClient = some c) := by
  cases hcc : electronProcess.cdpClient with
  | some client =>
    have heq : executeCDPCommand electronProcess targetId domain command params now disc
        openResult sendResult closeResult
        = execSend client electronProcess domain command params sendResult closeResult := by
      unfold executeCDPCommand
      rw [hcc]
    rw [heq]
    refine ⟨?_, ?_, ?_, ?_⟩
    · intro e h
      cases sendResult with
      | ok w => simp [execSend] at h
      | error e0 => cases closeResult <;> simp [execSend]
    · intro e h h2
      subst h2
      cases sendResult with
      | ok w => simp [execSend] at h
      | error e0 => simp [execSend]
    · intro e h h2
      cases sendResult with
      | ok w => simp [execSend] at h
      | error e0 => cases closeResult <;> simp [execSend] at h2
    · intro c e0 e2 hc hs hcl
      subst hs
      subst hcl
      injection hc with hc
      subst hc
      exact ⟨by simp [execSend], by simp [execSend, hcc]⟩
  | none =>
    rcases hcr : connectToCDPTarget electronProcess targetId now disc openResult with ⟨res, ep1, tr⟩
    have heq : executeCDPCommand electronProcess targetId domain command params now disc
        openResult sendResult closeResult =
        (match connectToCDPTarget electronProcess targetId now disc openResult with
          | (Except.error e3, ep2, _) => { result := Except.error e3, record := ep2, sends := [] }
          | (Except.ok client, ep2, _) =>
              execSend client ep2 domain command params sendResult closeResult) := by
      unfold executeCDPCommand
      rw [hcc]
    rw [heq, hcr]
    cases res with
    | error e3 =>
      have h2 := connectToCDPTarget_error_cdpClient electronProcess targetId now disc openResult
        e3 (by rw [hcr])
      rw [hcr, hcc] at h2
      refine ⟨?_, ?_, ?_, ?_⟩
      · intro e h
        simp
      · intro e h hcl
        simpa using h2
      · intro e h hs
        simpa using h2
      · intro c e0 e2 hc hs hcl
        exact Option.noConfusion hc
    | ok client =>
      refine ⟨?_, ?_, ?_, ?_⟩
      · intro e h
        cases sendResult with
        | ok w => simp [execSend] at h
        | error e0 => cases closeResult <;> simp [execSend]
      · intro e h hcl
        subst hcl
        cases sendResult with
        | ok w => simp [execSend] at h
        | error e0 => simp [execSend]
      · intro e h hs
        cases sendResult with
        | ok w => simp [execSend] at h
        | error e0 => cases closeResult <;> simp [execSend] at hs
      · intro c e0 e2 hc hs hcl
        exact Option.noConfusion hc

/-- C4, witness: the amended behaviour evaluated at both failure shapes.
The spec scenario - a command against a connection that fails to open -
surfaces the connection error with no cdpClient handle and zero sends;
and a cached-connection command failure whose close also throws
propagates the close error and keeps the stale handle. -/
theorem C4_execute_failure_behavior_witness :
    ((executeCDPCommand disconnectedApp "A" "Runtime" "evaluate" (JsonVal.str "1+1") 1000
      (Except.ok [demoTarget]) (Except.error "ConnectionError") (Except.ok JsonVal.null)
      (Except.ok ())).result = Except.error "ConnectionError" ∧
      (executeCDPCommand disconnectedApp "A" "Runtime" "evaluate" (JsonVal.str "1+1") 1000
        (Except.ok [demoTarget]) (Except.error "ConnectionError") (Except.ok JsonVal.null)
        (Except.ok ())).sends.length ≤ 1 ∧
      (executeCDPCommand disconnectedApp "A" "Runtime" "evaluate" (JsonVal.str "1+1") 1000
        (Except.ok [demoTarget]) (Except.error "ConnectionError") (Except.ok JsonVal.null)
        (Except.ok ())).record.cdpClient = none) ∧
    ((executeCDPCommand demoSpawnedApp "A" "Runtime" "evaluate" (JsonVal.str "1+1") 1000
      (Except.ok [demoTarget]) (Except.ok ()) (Except.error "ProtocolError")
      (Except.error "close failed")).result = Except.error "close failed" ∧
      (executeCDPCommand demoSpawnedApp "A" "Runtime" "evaluate" (JsonVal.str "1+1") 1000
        (Except.ok [demoTarget]) (Except.ok ()) (Except.error "ProtocolError")
        (Except.error "close failed")).record.cdpClient = some demoClient) :=
  ⟨⟨by decide,
    (C4_execute_failure_behavior disconnectedApp "A" "Runtime" "evaluate" (JsonVal.str "1+1")
      1000 (Except.ok [demoTarget]) (Except.error "ConnectionError") (Except.ok JsonVal.null)
      (Except.ok ())).1 "ConnectionError" (by decide),
    (C4_execute_failure_behavior disconnectedApp "A" "Runtime" "evaluate" (JsonVal.str "1+1")
      1000 (Except.ok [demoTarget]) (Except.error "ConnectionError") (Except.ok JsonVal.null)
      (Except.ok ())).2.1 "ConnectionError" (by decide) rfl⟩,
    (C4_execute_failure_behavior demoSpawnedApp "A" "Runtime" "evaluate" (JsonVal.str "1+1")
      1000 (Except.ok [demoTarget]) (Except.ok ()) (Except.error "ProtocolError")
      (Except.error "close failed")).2.2.2 demoClient "ProtocolError" "close failed"
      rfl rfl rfl⟩

/-- C5, counterexample: the claim that discovery is triggered when the
target list is empty is false on the code. A record whose last discovery
returned an empty array within the 5 second window skips discovery (an
empty array is truthy in JS, so only an absent list or an absent or stale
lastTargetUpdate triggers a refresh), and resolution of the requested
target - which the discovery oracle would have returned - fails with the
target-not-found error; no connection is opened. -/
theorem C5_counterexample :
    needsTargetRefresh emptyFreshTargetsApp 1000 = false ∧
    (connectToCDPTarget emptyFreshTargetsApp "A" 1000 (Except.ok [demoTarget])
      (Except.ok ())).2.2.discovered = false ∧
    (connectToCDPTarget emptyFreshTargetsApp "A" 1000 (Except.ok [demoTarget])
      (Except.ok ())).1 = Except.error "Target A not found" ∧
    (connectToCDPTarget emptyFreshTargetsApp "A" 1000 (Except.ok [demoTarget])
      (Except.ok ())).2.2.opened = false :=
  ⟨by decide, by decide, by decide, by decide⟩

/-- C5, amended: connect first triggers Target Discovery exactly when the
target list is absent or the lastTargetUpdate stamp is absent or older
than the 5 second freshness window (an empty but fresh list does not
re-trigger discovery); a discovery failure is propagated without opening
a connection; and when the requested id is absent from the current list
the call fails with the target-not-found error and never opens a
connection to the unknown target. -/
theorem C5_connect_refresh_and_resolution (electronProcess : ElectronProcess)
    (targetId : String) (now : Nat) (disc : Except String (List CDPTarget))
    (openResult : Except String Unit) (port : Nat)
    (hport : electronProcess.debugPort = some port) :
    ((connectToCDPTarget electronProcess targetId now disc openResult).2.2.discovered
        = needsTargetRefresh electronProcess now) ∧
    (∀ e, needsTargetRefresh electronProcess now = true → disc = Except.error e →
      (connectToCDPTarget electronProcess targetId now disc openResult).1 = Except.error e ∧
      (connectToCDPTarget electronProcess targetId now disc openResult).2.2.opened = false) ∧
    (∀ ts, (if needsTargetRefresh electronProcess now then disc
        else Except.ok (electronProcess.targets.getD [])) = Except.ok ts →
      ts.find? (fun t => t.id = targetId) = none →
      (connectToCDPTarget electronProcess targetId now disc openResult).1
          = Except.error ("Target " ++ targetId ++ " not found") ∧
      (connectToCDPTarget electronProcess targetId now disc openResult).2.2.opened = false) := by
  refine ⟨?_, ?_, ?_⟩
  · unfold connectToCDPTarget
    rw [hport]
    by_cases href : needsTargetRefresh electronProcess now
    · cases disc with
      | error e0 => simp [href, updateCDPTargets, hport]
      | ok ts0 =>
        cases hfind : ts0.find? (fun t => t.id = targetId) with
        | none => simp [href, updateCDPTargets, hport, hfind]
        | some t => cases openResult <;> simp [href, updateCDPTargets, hport, hfind]
    · have hf : needsTargetRefresh electronProcess now = false := by simpa using href
      cases hfind : (electronProcess.targets.getD []).find? (fun t => t.id = targetId) with
      | none => simp [hf, hfind]
      | some t => cases openResult <;> simp [hf, hfind]
  · intro e h1 h2
    subst h2
    constructor <;> (unfold connectToCDPTarget; rw [hport]; simp [h1, updateCDPTargets, hport])
  · intro ts h1 h2
    by_cases href : needsTargetRefresh electronProcess now
    · rw [if_pos href] at h1
      subst h1
      constructor <;>
        (unfold connectToCDPTarget; rw [hport]; simp [href, updateCDPTargets, hport, h2])
    · have hf : needsTargetRefresh electronProcess now = false := by simpa using href
      rw [if_neg href] at h1
      injection h1 with h1
      constructor <;> (unfold connectToCDPTarget; rw [hport]; simp [hf, h1, h2])

/-- C5, witness: resolution of an unknown target id on a record that has
never fetched targets - discovery runs first (and succeeds with one
target), the id is still absent, and the call fails without opening a
connection. -/
theorem C5_connect_refresh_and_resolution_witness :
    needsTargetRefresh staleTargetsApp 1000 = true ∧
    ((connectToCDPTarget staleTargetsApp "B" 1000 (Except.ok [demoTarget]) (Except.ok ())).1
        = Except.error ("Target " ++ "B" ++ " not found") ∧
      (connectToCDPTarget staleTargetsApp "B" 1000 (Except.ok [demoTarget])
        (Except.ok ())).2.2.opened = false) :=
  ⟨by decide,
    (C5_connect_refresh_and_resolution staleTargetsApp "B" 1000 (Except.ok [demoTarget])
      (Except.ok ()) 9222 rfl).2.2 [demoTarget] (by decide) (by decide)⟩

end ElectronMcp
